import Mathlib

/-!
Verification development for the renac-ha-mqtt bridge.

This file gives a shallow embedding of the Python sources
src/renac_ha_mqtt/mqtt_device.py and src/renac_ha_bridge/__main__.py and
proves the behavioural claims about them.

Modelling conventions:
- Python scalar values (None, bool, int, str) are modelled by the inductive
  type Value with structural (value-) equality, matching the use of == / !=
  on the scalar telemetry and command payloads handled by the bridge.
- Python dicts used as key/value stores (self.state, self._actuator_callbacks,
  the entities tables) are modelled as association lists with the functions
  alookup / aset; dict.get's None default is pyGet.
- Side effects of the MQTT client (publish, subscribe, will_set, connect,
  reconnect, sleeping) and of the logger are reified as the inductive type
  Effect; each embedded operation returns the effects it performs, in program
  order.  Log message texts are abbreviated (no emoji, no interpolated value
  reprs); only their level and the interpolated key matter to the claims.
  The debug log inside _set_state is elided.
- A registered actuator callback is a function Value → Except Unit Value:
  Except.error models the callback raising an exception (caught by the
  try/except around the invocation in on_message), Except.ok r models a
  normal return with value r (r = Value.vNone for a Python callback that
  returns None).
- json.loads is an external library call; command dispatch is parameterised
  by a decoder decode : String → Option Value, where none models a
  json.JSONDecodeError.
- CPython's built-in str.split / str.strip / str.replace do not exist in
  Lean in kernel-reducible form, so the single-character uses this repository
  makes of them are embedded directly: pySplitChar (str.split('/')),
  pySplitWs (str.split() with no argument), pyStrip (str.strip()),
  replaceChar (str.replace(",", " ")).
- time.monotonic readings and the float intervals are modelled as rationals;
  the supervisor loop of run_inverter_task is embedded as a function of the
  list of successive clock readings of its iterations.
-/

/-- Scalar Python values carried in telemetry, state and command payloads. -/
inductive Value where
  | vNone
  | vBool (b : Bool)
  | vInt (n : Int)
  | vStr (s : String)
deriving DecidableEq

/-- Severity levels of the logger calls in the source. -/
inductive LogLevel where
  | debug
  | info
  | warning
  | error
deriving DecidableEq

/-- Reified side effects of the embedded operations, in program order.
publishConfig abstracts the retained discovery-config publishes of
_register_sensors / _register_actuators (their JSON payload is not touched
by any claim). -/
inductive Effect where
  | publish (topic : String) (payload : Value) (retain : Bool)
  | publishConfig (topic : String)
  | subscribe (topic : String)
  | willSet (topic : String) (payload : Value) (retain : Bool)
  | usernamePwSet
  | connectBroker
  | loopStart
  | reconnectAttempt
  | sleep (seconds : ℚ)
  | log (level : LogLevel) (msg : String)
deriving DecidableEq

/-- Association-list lookup, modelling Python dict indexing / membership. -/
def alookup {α : Type} : List (String × α) → String → Option α
  | [], _ => none
  | (k, v) :: rest, key => if k = key then some v else alookup rest key

/-- Association-list update, modelling Python dict item assignment. -/
def aset {α : Type} : List (String × α) → String → α → List (String × α)
  | [], key, v => [(key, v)]
  | (k, w) :: rest, key, v =>
    if k = key then (key, v) :: rest else (k, w) :: aset rest key v

/-- Python dict.get(key): returns None when the key is absent. -/
def pyGet (st : List (String × Value)) (key : String) : Value :=
  (alookup st key).getD Value.vNone

/-- Python str(x) for an Optional[str], as used by the f-string building the
state topic from get_entity_type's result (None renders as "None"). -/
def pyStrOpt : Option String → String
  | some s => s
  | none => "None"

/-- CPython str.split(sep) for a single-character separator: splits at every
occurrence, keeping empty segments. -/
def splitCharAux (sep : Char) : List Char → List Char → List (List Char)
  | [], acc => [acc.reverse]
  | c :: rest, acc =>
    if c = sep then acc.reverse :: splitCharAux sep rest []
    else splitCharAux sep rest (c :: acc)

/-- CPython str.split(sep) for a one-character separator string. -/
def pySplitChar (sep : Char) (s : String) : List String :=
  (splitCharAux sep s.data []).map (fun cs => String.mk cs)

/-- CPython str.split() with no argument: split on whitespace runs,
discarding empty segments. -/
def pySplitWs (s : String) : List String :=
  ((splitCharAux ' ' ((s.data.map
      (fun c => if c.isWhitespace then ' ' else c))) []).map
    (fun cs => String.mk cs)).filter (fun p => p ≠ "")

/-- CPython str.strip(): drop leading and trailing whitespace. -/
def pyStrip (s : String) : String :=
  String.mk (((s.data.dropWhile Char.isWhitespace).reverse.dropWhile
    Char.isWhitespace).reverse)

/-- CPython str.replace(old, new) for one-character arguments. -/
def replaceChar (old new : Char) (s : String) : String :=
  String.mk (s.data.map (fun c => if c = old then new else c))

/-- A RenacMqttDevice: identity, entity-definition table and mutable state
(mqtt_device.py lines 40-70).  The entities TypedDict is modelled as the
insertion-ordered list of (entity category, keys of that category); the
per-entity metadata (units, bounds, options) is carried only by discovery
configs, which no claim inspects, and is elided. -/
structure Device where
  device_id : String
  device_name : String
  device_model : String
  entities : List (String × List String)
  state : List (String × Value)
deriving DecidableEq

/-- Availability topic of a device (mqtt_device.py lines 66, 97). -/
def availabilityTopic (device_id : String) : String :=
  "homeassistant/" ++ device_id ++ "/availability"

/-- State topic used by set_sensor_value (mqtt_device.py line 242). -/
def sensorStateTopic (device_id key : String) : String :=
  "homeassistant/sensor/" ++ device_id ++ "/" ++ key ++ "/state"

/-- RenacMqttDevice._set_state (mqtt_device.py lines 218-224): store value
under key iff it differs (by value-equality) from the stored value; the
returned Bool is the method's return value. -/
def _set_state (st : List (String × Value)) (key : String) (value : Value) :
    List (String × Value) × Bool :=
  if pyGet st key ≠ value then (aset st key value, true) else (st, false)

/-- The dict-branch loop of set_sensor_value (mqtt_device.py lines 233-236):
fold _set_state over the items, collecting the changed pairs in order. -/
def applyUpdates : List (String × Value) → List (String × Value) →
    List (String × Value) × List (String × Value)
  | st, [] => (st, [])
  | st, (k, v) :: rest =>
    let r := _set_state st k v
    let rr := applyUpdates r.1 rest
    (rr.1, (if r.2 then [(k, v)] else []) ++ rr.2)

/-- Argument shape of set_sensor_value: a single key/value or a mapping
(the Union[str, Dict[str, Any]] of mqtt_device.py line 226). -/
inductive SensorArg where
  | single (key : String) (value : Value)
  | mapping (items : List (String × Value))

/-- RenacMqttDevice.set_sensor_value (mqtt_device.py lines 226-248): update
state for changed keys only, publish each changed key retained to its sensor
state topic, log once if anything was published, and return bool(updates). -/
def set_sensor_value (dev : Device) (arg : SensorArg) :
    Device × List Effect × Bool :=
  let su :=
    match arg with
    | .mapping items => applyUpdates dev.state items
    | .single k v =>
      let r := _set_state dev.state k v
      (r.1, if r.2 then [(k, v)] else [])
  let pubs := su.2.map
    (fun kv => Effect.publish (sensorStateTopic dev.device_id kv.1) kv.2 true)
  let effs :=
    if su.2.isEmpty then pubs
    else pubs ++ [Effect.log .info ("Published sensor updates")]
  ({ dev with state := su.1 }, effs, !su.2.isEmpty)

/-- RenacMqttDevice.get_entity_type (mqtt_device.py lines 250-255): first
entity category whose key set contains key, in table order. -/
def get_entity_type : List (String × List String) → String → Option String
  | [], _ => none
  | (entity_type, entity_keys) :: rest, key =>
    if key ∈ entity_keys then some entity_type else get_entity_type rest key

/-- RenacMqttDevice.set_actuator_value (mqtt_device.py lines 267-277).
Note the order in the source: _set_state runs (mutating self.state) before
the entity-type check, so the None-entity-type early return happens with the
state already updated. -/
def set_actuator_value (dev : Device) (key : String) (value : Value) :
    Device × List Effect × Bool :=
  let r := _set_state dev.state key value
  if r.2 then
    let dev' := { dev with state := r.1 }
    match get_entity_type dev.entities key with
    | none => (dev', [], false)
    | some entity_type =>
      (dev',
       [Effect.publish
          ("homeassistant/" ++ entity_type ++ "/" ++ dev.device_id ++ "/" ++
            key ++ "/state") value true,
        Effect.log .info ("Published actuator update")], true)
  else (dev, [], false)

/-- Key extraction of on_message (mqtt_device.py line 126): second-to-last
segment of the slash-split topic. -/
def commandKey (topic : String) : String :=
  let topic_parts := pySplitChar '/' topic
  topic_parts.getD (topic_parts.length - 2) ("")

/-- Payload decoding of on_message (mqtt_device.py lines 130-133): try
json.loads, fall back to the raw (stripped) string on decode failure. -/
def commandValue (decode : String → Option Value) (payload : String) : Value :=
  match decode payload with
  | some v => v
  | none => Value.vStr payload

/-- State topic used by the command dispatcher (mqtt_device.py line 144);
get_entity_type's result is rendered through the f-string, so a missing
entity renders as the literal segment None. -/
def commandStateTopic (dev : Device) (key : String) : String :=
  "homeassistant/" ++ pyStrOpt (get_entity_type dev.entities key) ++ "/" ++
    dev.device_id ++ "/" ++ key ++ "/state"

/-- Invocation and aftermath of a registered callback in on_message
(mqtt_device.py lines 136-149): an explicit False return logs a warning and
changes nothing; any other return republishes the command value retained and
stores it; a raised exception is caught and logged, changing nothing. -/
def dispatchCommand (dev : Device) (key : String) (value : Value)
    (outcome : Except Unit Value) : Device × List Effect :=
  match outcome with
  | .error _ =>
    (dev, [Effect.log .info ("Received command for " ++ key),
           Effect.log .error ("Error executing callback for " ++ key)])
  | .ok result =>
    if result = Value.vBool false then
      (dev, [Effect.log .info ("Received command for " ++ key),
             Effect.log .warning ("Command for " ++ key ++
               " failed or was rejected")])
    else
      ({ dev with state := (_set_state dev.state key value).1 },
       [Effect.log .info ("Received command for " ++ key),
        Effect.log .info ("Command for " ++ key ++ " executed"),
        Effect.publish (commandStateTopic dev key) value true,
        Effect.log .debug ("State updated")])

/-- RenacMqttDevice.on_message (mqtt_device.py lines 123-153).  The topic
must split into at least 5 segments ending in the literal "set"; the key is
the second-to-last segment; unregistered keys are logged and discarded. -/
def on_message (dev : Device)
    (callbacks : List (String × (Value → Except Unit Value)))
    (decode : String → Option Value) (topic : String) (rawPayload : String) :
    Device × List Effect :=
  let topic_parts := pySplitChar '/' topic
  if 5 ≤ topic_parts.length ∧ topic_parts.getLast? = some ("set") then
    let key := commandKey topic
    let payload := pyStrip rawPayload
    match alookup callbacks key with
    | some callback =>
      let value := commandValue decode payload
      dispatchCommand dev key value (callback value)
    | none =>
      (dev, [Effect.log .warning ("No callback found for actuator key: " ++ key)])
  else
    (dev, [Effect.log .debug ("Unhandled MQTT message: " ++ topic)])

/-- Python truthiness of an Optional[str] (the `if self.mqtt_user` check). -/
def isTruthy : Option String → Bool
  | none => false
  | some s => !(s == "")

/-- Effects of RenacMqttDevice.__init__'s MQTT-client setup (mqtt_device.py
lines 62-70): optional credentials, then arming the last-will to retained
"offline" on the availability topic.  No connect happens here. -/
def initEffects (dev : Device) (mqtt_user : Option String) : List Effect :=
  (if isTruthy mqtt_user then [Effect.usernamePwSet] else []) ++
  [Effect.willSet (availabilityTopic dev.device_id) (Value.vStr ("offline")) true]

/-- Effects of RenacMqttDevice.connect (mqtt_device.py lines 72-77). -/
def connectEffects : List Effect :=
  [Effect.log .info ("Connecting to MQTT broker..."),
   Effect.connectBroker, Effect.loopStart,
   Effect.log .info ("MQTT loop started")]

/-- Python self.entities.get(category, \x7b\x7d), as a key list. -/
def entitiesGet (entities : List (String × List String))
    (entity_type : String) : List String :=
  (alookup entities entity_type).getD []

/-- RenacMqttDevice._register_sensors (mqtt_device.py lines 155-173):
one retained discovery-config publish per sensor entity. -/
def _register_sensors (dev : Device) : List Effect :=
  (entitiesGet dev.entities ("sensor")).map (fun key =>
    Effect.publishConfig
      ("homeassistant/sensor/" ++ dev.device_id ++ "/" ++ key ++ "/config"))

/-- RenacMqttDevice._register_actuators (mqtt_device.py lines 175-216):
subscribe to the set topic and publish the retained discovery config for
every number entity, then for every select entity. -/
def _register_actuators (dev : Device) : List Effect :=
  ((entitiesGet dev.entities ("number")).map (fun key =>
    [Effect.subscribe
       ("homeassistant/number/" ++ dev.device_id ++ "/" ++ key ++ "/set"),
     Effect.publishConfig
       ("homeassistant/number/" ++ dev.device_id ++ "/" ++ key ++ "/config")])).flatten
  ++
  ((entitiesGet dev.entities ("select")).map (fun key =>
    [Effect.subscribe
       ("homeassistant/select/" ++ dev.device_id ++ "/" ++ key ++ "/set"),
     Effect.publishConfig
       ("homeassistant/select/" ++ dev.device_id ++ "/" ++ key ++ "/config")])).flatten

/-- RenacMqttDevice.on_connect (mqtt_device.py lines 93-101): on result code
0 publish retained "online" to the availability topic and register all
entities; otherwise only log an error. -/
def on_connect (dev : Device) (rc : Nat) : List Effect :=
  if rc = 0 then
    [Effect.log .info ("MQTT connected"),
     Effect.publish (availabilityTopic dev.device_id) (Value.vStr ("online")) true]
    ++ _register_sensors dev ++ _register_actuators dev
  else
    [Effect.log .error ("MQTT connect failed")]

/-- Reconnect loop of on_disconnect (mqtt_device.py lines 107-121): up to 10
attempts with doubling capped backoff; outcome gives each attempt's result. -/
def reconnectLoop (outcome : Nat → Bool) : Nat → Nat → ℚ → List Effect
  | 0, _, _ =>
    [Effect.log .error ("Failed to reconnect to MQTT after multiple attempts")]
  | fuel + 1, attempts, delay =>
    Effect.reconnectAttempt ::
    (if outcome attempts then [Effect.log .info ("MQTT reconnected")]
     else Effect.log .error ("Reconnect failed") :: Effect.sleep delay ::
          reconnectLoop outcome fuel (attempts + 1) (min (delay * 2) 60))

/-- RenacMqttDevice.on_disconnect (mqtt_device.py lines 103-121). -/
def on_disconnect (outcome : Nat → Bool) : List Effect :=
  Effect.log .warning ("MQTT disconnected. Reconnecting...") ::
    reconnectLoop outcome 10 0 1

/-- Dedup loop of _split_addrs (__main__.py lines 56-61): keep the first
occurrence of each nonempty address, preserving order. -/
def dedupeKeepFirst : List String → List String → List String → List String
  | [], _, out => out
  | a :: rest, seen, out =>
    if a ≠ "" ∧ ¬ a ∈ seen then dedupeKeepFirst rest (a :: seen) (out ++ [a])
    else dedupeKeepFirst rest seen out

/-- The raw token list of _split_addrs (__main__.py line 54):
value.replace(",", " ").split() with each piece stripped. -/
def rawAddrTokens (value : String) : List String :=
  (pySplitWs (replaceChar ',' ' ' value)).map (fun p => pyStrip p)

/-- _split_addrs (__main__.py lines 50-61). -/
def _split_addrs (value : String) : List String :=
  if value = "" then []
  else dedupeKeepFirst (rawAddrTokens value) [] []

/-- Specification-side restatement of first-occurrence deduplication, used to
compare _split_addrs against the spec's words "removes duplicates while
preserving first-occurrence order". -/
def specFirstOccurrence : List String → List String
  | [] => []
  | x :: xs => x :: specFirstOccurrence (xs.filter (fun a => a ≠ x))
termination_by l => l.length
decreasing_by
  simp only [List.length_cons]
  exact Nat.lt_succ_of_le (List.length_filter_le _ _)

/-- _resolve_inverter_addrs (__main__.py lines 64-68): legacy single address
first (when truthy), duplicates of it filtered out of the list. -/
def _resolve_inverter_addrs (legacy : Option String) (env : String) :
    List String :=
  let addrs := _split_addrs env
  match legacy with
  | some l => if l = "" then addrs else l :: addrs.filter (fun a => a ≠ l)
  | none => addrs

/-- _resolve_wallbox_addrs (__main__.py lines 71-75). -/
def _resolve_wallbox_addrs (legacy : Option String) (env : String) :
    List String :=
  let addrs := _split_addrs env
  match legacy with
  | some l => if l = "" then addrs else l :: addrs.filter (fun a => a ≠ l)
  | none => addrs

/-- A supervisor task spawned by _run_all, tagged by device kind. -/
inductive TaskSpec where
  | inverter (addr : String)
  | wallbox (addr : String)
deriving DecidableEq

/-- _run_all (__main__.py lines 278-297): spawn one task per address; with
zero tasks raise SystemExit with a descriptive message (a non-zero process
exit), spawning nothing and never retrying. -/
def _run_all (inverter_addrs wallbox_addrs : List String) :
    Except String (List TaskSpec) :=
  let tasks := inverter_addrs.map TaskSpec.inverter ++
               wallbox_addrs.map TaskSpec.wallbox
  if tasks.isEmpty then
    Except.error
      ("No devices configured. Set RENAC_INVERTER_ADDR(S) and/or RENAC_WALLBOX_ADDR(S).")
  else Except.ok tasks

/-- Timing skeleton of the connected-phase loop of run_inverter_task
(__main__.py lines 216-258): given the successive time.monotonic readings of
the loop iterations and the reading taken before the loop, each iteration
polls sensors, and runs the actuator refresh iff at least the refresh
interval elapsed since the last refresh (initially since loop entry); the
returned list has one (reading, refresh ran) pair per iteration. -/
def runInverterLoopIters (refresh_interval : ℚ) :
    List ℚ → ℚ → List (ℚ × Bool)
  | [], _ => []
  | now :: rest, last_actuator_poll =>
    if refresh_interval ≤ now - last_actuator_poll then
      (now, true) :: runInverterLoopIters refresh_interval rest now
    else
      (now, false) :: runInverterLoopIters refresh_interval rest last_actuator_poll

/-- A concrete device used as input for witnesses and counterexamples. -/
def sampleDevice : Device :=
  { device_id := "inverter_123"
    device_name := "RENAC Inverter"
    device_model := "X1"
    entities :=
      [("number", ["max_charge_current"]), ("select", ["work_mode"]),
       ("sensor", ["load_power"])]
    state := [] }

/-- A callback that raises (models a Python exception escaping the setter). -/
def cbRaise : Value → Except Unit Value := fun _ => Except.error ()

/-- Callback registration table holding only the raising callback. -/
def sampleCallbacksRaise : List (String × (Value → Except Unit Value)) :=
  [("max_charge_current", cbRaise)]

/-- A decoder that always fails (every payload is malformed JSON). -/
def decodeNone : String → Option Value := fun _ => none

/-- Command topic for the sample device's number entity. -/
def sampleCmdTopic : String :=
  "homeassistant/number/inverter_123/max_charge_current/set"


theorem alookup_aset_self {α : Type} (l : List (String × α)) (k : String) (v : α) :
    alookup (aset l k v) k = some v := by
  induction l with
  | nil => simp [aset, alookup]
  | cons hd tl ih =>
    obtain ⟨k1, v1⟩ := hd
    by_cases h : k1 = k
    · simp [aset, h, alookup]
    · simp [aset, h, alookup, ih]

theorem alookup_aset_of_ne {α : Type} (l : List (String × α)) (k k' : String)
    (v : α) (h : k' ≠ k) : alookup (aset l k v) k' = alookup l k' := by
  induction l with
  | nil => simp [aset, alookup, Ne.symm h]
  | cons hd tl ih =>
    obtain ⟨k1, v1⟩ := hd
    by_cases h1 : k1 = k
    · subst h1
      simp [aset, alookup, Ne.symm h]
    · simp [aset, h1, alookup, ih]

theorem pyGet_aset_self (st : List (String × Value)) (k : String) (v : Value) :
    pyGet (aset st k v) k = v := by
  simp [pyGet, alookup_aset_self]

theorem pyGet_aset_of_ne (st : List (String × Value)) (k k' : String)
    (v : Value) (h : k' ≠ k) : pyGet (aset st k v) k' = pyGet st k' := by
  simp [pyGet, alookup_aset_of_ne _ _ _ _ h]

theorem set_state_changed (st : List (String × Value)) (k : String) (v : Value)
    (h : pyGet st k ≠ v) : _set_state st k v = (aset st k v, true) := by
  simp [_set_state, h]

theorem set_state_unchanged (st : List (String × Value)) (k : String)
    (v : Value) (h : pyGet st k = v) : _set_state st k v = (st, false) := by
  simp [_set_state, h]

theorem pyGet_set_state (st : List (String × Value)) (k : String) (v : Value) :
    pyGet (_set_state st k v).1 k = v := by
  by_cases h : pyGet st k = v
  · rw [set_state_unchanged _ _ _ h]
    exact h
  · rw [set_state_changed _ _ _ h]
    exact pyGet_aset_self st k v

theorem applyUpdates_cons_fst (st : List (String × Value)) (k : String)
    (v : Value) (rest : List (String × Value)) :
    (applyUpdates st ((k, v) :: rest)).1
      = (applyUpdates (_set_state st k v).1 rest).1 := rfl

theorem applyUpdates_alookup_of_not_mem (items : List (String × Value)) :
    ∀ (st : List (String × Value)) (k : String), k ∉ items.map Prod.fst →
    alookup (applyUpdates st items).1 k = alookup st k := by
  induction items with
  | nil =>
    intro st k _
    rfl
  | cons kv0 rest ih =>
    intro st k h
    obtain ⟨k1, v1⟩ := kv0
    simp only [List.map_cons, List.mem_cons, not_or] at h
    obtain ⟨hk1, hrest⟩ := h
    rw [applyUpdates_cons_fst, ih _ _ hrest]
    by_cases hc : pyGet st k1 = v1
    · rw [set_state_unchanged _ _ _ hc]
    · rw [set_state_changed _ _ _ hc]
      exact alookup_aset_of_ne _ _ _ _ hk1

theorem applyUpdates_pyGet_self (items : List (String × Value)) :
    ∀ (st : List (String × Value)), (items.map Prod.fst).Nodup →
    ∀ kv ∈ items, pyGet (applyUpdates st items).1 kv.1 = kv.2 := by
  induction items with
  | nil =>
    intro st _ kv hmem
    simp at hmem
  | cons kv0 rest ih =>
    intro st hnd kv hmem
    obtain ⟨k1, v1⟩ := kv0
    simp only [List.map_cons, List.nodup_cons] at hnd
    obtain ⟨hk1, hndr⟩ := hnd
    rcases List.mem_cons.mp hmem with heq | hmemr
    · subst heq
      rw [applyUpdates_cons_fst]
      have h1 := applyUpdates_alookup_of_not_mem rest (_set_state st k1 v1).1 k1 hk1
      simp only [pyGet, h1]
      exact pyGet_set_state st k1 v1
    · rw [applyUpdates_cons_fst]
      exact ih _ hndr kv hmemr

theorem applyUpdates_fixed (items : List (String × Value)) :
    ∀ (st : List (String × Value)), (∀ kv ∈ items, pyGet st kv.1 = kv.2) →
    applyUpdates st items = (st, []) := by
  induction items with
  | nil =>
    intro st _
    rfl
  | cons kv0 rest ih =>
    intro st h
    obtain ⟨k1, v1⟩ := kv0
    have h1 : pyGet st k1 = v1 := h _ (List.mem_cons_self _ _)
    simp only [applyUpdates, set_state_unchanged _ _ _ h1,
      ih st (fun kv hm => h kv (List.mem_cons_of_mem _ hm))]
    simp

theorem ssv_single_changed (dev : Device) (k : String) (v : Value)
    (h : pyGet dev.state k ≠ v) :
    set_sensor_value dev (.single k v) =
      ({ dev with state := aset dev.state k v },
       [Effect.publish (sensorStateTopic dev.device_id k) v true,
        Effect.log .info ("Published sensor updates")], true) := by
  simp [set_sensor_value, set_state_changed _ _ _ h]

theorem ssv_single_unchanged (dev : Device) (k : String) (v : Value)
    (h : pyGet dev.state k = v) :
    set_sensor_value dev (.single k v) = (dev, [], false) := by
  simp [set_sensor_value, set_state_unchanged _ _ _ h]

theorem ssv_single_fst (dev : Device) (k : String) (v : Value) :
    (set_sensor_value dev (.single k v)).1
      = { dev with state := (_set_state dev.state k v).1 } := by
  by_cases h : pyGet dev.state k = v
  · rw [ssv_single_unchanged dev k v h, set_state_unchanged _ _ _ h]
  · rw [ssv_single_changed dev k v h, set_state_changed _ _ _ h]

theorem ssv_single_repeat (dev : Device) (k : String) (v : Value) :
    set_sensor_value (set_sensor_value dev (.single k v)).1 (.single k v)
      = ((set_sensor_value dev (.single k v)).1, [], false) := by
  apply ssv_single_unchanged
  rw [ssv_single_fst]
  exact pyGet_set_state dev.state k v

theorem ssv_mapping_fst (dev : Device) (items : List (String × Value)) :
    (set_sensor_value dev (.mapping items)).1
      = { dev with state := (applyUpdates dev.state items).1 } := rfl

theorem ssv_mapping_repeat (dev : Device) (items : List (String × Value))
    (hnd : (items.map Prod.fst).Nodup) :
    set_sensor_value (set_sensor_value dev (.mapping items)).1 (.mapping items)
      = ((set_sensor_value dev (.mapping items)).1, [], false) := by
  rw [ssv_mapping_fst]
  have h2 := applyUpdates_pyGet_self items dev.state hnd
  have h3 := applyUpdates_fixed items (applyUpdates dev.state items).1 h2
  simp [set_sensor_value, h3]

/-- C1: the sensor-update operation updates internal state and publishes to
the key's state topic, retained, only when the new value differs by
value-equality from the stored value; calling it twice in succession with an
identical value publishes exactly once (the one publish happens on the first
call when the value differs), and the second call publishes nothing and
leaves state unchanged, for both the single-key and the mapping form. -/
theorem C1_sensor_update_dedup_idempotent :
    ∀ (dev : Device) (k : String) (v : Value) (items : List (String × Value)),
    (items.map Prod.fst).Nodup →
    ((pyGet dev.state k ≠ v →
      set_sensor_value dev (.single k v) =
        ({ dev with state := aset dev.state k v },
         [Effect.publish (sensorStateTopic dev.device_id k) v true,
          Effect.log .info ("Published sensor updates")], true))
    ∧ (pyGet dev.state k = v →
      set_sensor_value dev (.single k v) = (dev, [], false))
    ∧ set_sensor_value (set_sensor_value dev (.single k v)).1 (.single k v)
        = ((set_sensor_value dev (.single k v)).1, [], false)
    ∧ set_sensor_value (set_sensor_value dev (.mapping items)).1 (.mapping items)
        = ((set_sensor_value dev (.mapping items)).1, [], false)) := by
  intro dev k v items hnd
  exact ⟨fun h => ssv_single_changed dev k v h,
         fun h => ssv_single_unchanged dev k v h,
         ssv_single_repeat dev k v,
         ssv_mapping_repeat dev items hnd⟩

/-- Witness for C1 at a concrete device, key and value. -/
theorem C1_witness :
    (([("load_power", Value.vInt 500)].map Prod.fst).Nodup)
    ∧ ((pyGet sampleDevice.state ("load_power") ≠ Value.vInt 500 →
      set_sensor_value sampleDevice (.single ("load_power") (Value.vInt 500)) =
        ({ sampleDevice with
            state := aset sampleDevice.state ("load_power") (Value.vInt 500) },
         [Effect.publish (sensorStateTopic sampleDevice.device_id ("load_power"))
            (Value.vInt 500) true,
          Effect.log .info ("Published sensor updates")], true))
    ∧ (pyGet sampleDevice.state ("load_power") = Value.vInt 500 →
      set_sensor_value sampleDevice (.single ("load_power") (Value.vInt 500))
        = (sampleDevice, [], false))
    ∧ set_sensor_value
        (set_sensor_value sampleDevice
          (.single ("load_power") (Value.vInt 500))).1
        (.single ("load_power") (Value.vInt 500))
        = ((set_sensor_value sampleDevice
            (.single ("load_power") (Value.vInt 500))).1, [], false)
    ∧ set_sensor_value
        (set_sensor_value sampleDevice
          (.mapping [("load_power", Value.vInt 500)])).1
        (.mapping [("load_power", Value.vInt 500)])
        = ((set_sensor_value sampleDevice
            (.mapping [("load_power", Value.vInt 500)])).1, [], false)) :=
  ⟨by decide,
   C1_sensor_update_dedup_idempotent sampleDevice ("load_power")
     (Value.vInt 500) [("load_power", Value.vInt 500)] (by decide)⟩

/-- C10: when a key is absent from every entity category (get_entity_type
returns none) and the value differs from the stored one, set_actuator_value
returns false and publishes nothing, but internal state has already been
mutated to the new value. -/
theorem C10_actuator_missing_entity_mutates_state :
    ∀ (dev : Device) (key : String) (value : Value),
    get_entity_type dev.entities key = none →
    pyGet dev.state key ≠ value →
    set_actuator_value dev key value =
      ({ dev with state := aset dev.state key value }, [], false) := by
  intro dev key value hent hne
  simp [set_actuator_value, set_state_changed _ _ _ hne, hent]

/-- Witness for C10 at a concrete device and unregistered key. -/
theorem C10_witness :
    get_entity_type sampleDevice.entities ("unknown_key") = none
    ∧ pyGet sampleDevice.state ("unknown_key") ≠ Value.vInt 1
    ∧ set_actuator_value sampleDevice ("unknown_key") (Value.vInt 1) =
        ({ sampleDevice with
            state := aset sampleDevice.state ("unknown_key") (Value.vInt 1) },
         [], false) :=
  ⟨by decide, by decide,
   C10_actuator_missing_entity_mutates_state sampleDevice ("unknown_key")
     (Value.vInt 1) (by decide) (by decide)⟩

theorem ssv_single_ret_iff (dev : Device) (k : String) (v : Value) :
    ((set_sensor_value dev (.single k v)).2.2 = true ↔
      ∃ t p b, Effect.publish t p b ∈ (set_sensor_value dev (.single k v)).2.1) := by
  by_cases h : pyGet dev.state k = v
  · rw [ssv_single_unchanged dev k v h]
    simp
  · rw [ssv_single_changed dev k v h]
    simp

theorem ssv_mapping_ret_iff (dev : Device) (items : List (String × Value)) :
    ((set_sensor_value dev (.mapping items)).2.2 = true ↔
      ∃ t p b, Effect.publish t p b ∈ (set_sensor_value dev (.mapping items)).2.1) := by
  rcases hu : (applyUpdates dev.state items).2 with _ | ⟨kv, rest⟩
  · simp [set_sensor_value, hu]
  · simp only [set_sensor_value, hu]
    constructor
    · intro _
      refine ⟨sensorStateTopic dev.device_id kv.1, kv.2, true, ?_⟩
      simp
    · intro _
      simp

/-- C7 counterexample: set_sensor_value does not return the set of keys it
published.  Two calls that publish different key sets (key a versus key b)
return the same value, so the return value cannot be that set; it is the
Boolean bool(updates). -/
theorem C7_counterexample_return_not_key_set :
    ((set_sensor_value sampleDevice (.mapping [("a", Value.vInt 1)])).2.2
      = (set_sensor_value sampleDevice (.mapping [("b", Value.vInt 1)])).2.2)
    ∧ ((set_sensor_value sampleDevice (.mapping [("a", Value.vInt 1)])).2.1
      ≠ (set_sensor_value sampleDevice (.mapping [("b", Value.vInt 1)])).2.1)
    ∧ ((set_sensor_value sampleDevice (.mapping [("a", Value.vInt 1)])).2.2 = true) := by
  decide

/-- C7 (amended): set_sensor_value returns a Boolean, true iff at least one
key was actually published in that call; a repeat call with identical values
(single key or mapping) publishes nothing and returns false. -/
theorem C7_amended_returns_publish_flag :
    ∀ (dev : Device) (k : String) (v : Value) (items : List (String × Value)),
    (items.map Prod.fst).Nodup →
    (((set_sensor_value dev (.single k v)).2.2 = true ↔
       ∃ t p b, Effect.publish t p b ∈ (set_sensor_value dev (.single k v)).2.1)
    ∧ ((set_sensor_value dev (.mapping items)).2.2 = true ↔
       ∃ t p b, Effect.publish t p b ∈ (set_sensor_value dev (.mapping items)).2.1)
    ∧ (set_sensor_value (set_sensor_value dev (.single k v)).1 (.single k v)).2.2
        = false
    ∧ (set_sensor_value (set_sensor_value dev (.mapping items)).1 (.mapping items)).2.2
        = false) := by
  intro dev k v items hnd
  refine ⟨ssv_single_ret_iff dev k v, ssv_mapping_ret_iff dev items, ?_, ?_⟩
  · rw [ssv_single_repeat dev k v]
  · rw [ssv_mapping_repeat dev items hnd]

/-- Witness for C7's amended claim at a concrete device and values. -/
theorem C7_amended_witness :
    (([("load_power", Value.vInt 500)].map Prod.fst).Nodup)
    ∧ (((set_sensor_value sampleDevice (.single ("lp") (Value.vInt 5))).2.2 = true ↔
       ∃ t p b, Effect.publish t p b ∈
         (set_sensor_value sampleDevice (.single ("lp") (Value.vInt 5))).2.1)
    ∧ ((set_sensor_value sampleDevice
          (.mapping [("load_power", Value.vInt 500)])).2.2 = true ↔
       ∃ t p b, Effect.publish t p b ∈
         (set_sensor_value sampleDevice
           (.mapping [("load_power", Value.vInt 500)])).2.1)
    ∧ (set_sensor_value
        (set_sensor_value sampleDevice (.single ("lp") (Value.vInt 5))).1
        (.single ("lp") (Value.vInt 5))).2.2 = false
    ∧ (set_sensor_value
        (set_sensor_value sampleDevice
          (.mapping [("load_power", Value.vInt 500)])).1
        (.mapping [("load_power", Value.vInt 500)])).2.2 = false) :=
  ⟨by decide,
   C7_amended_returns_publish_flag sampleDevice ("lp") (Value.vInt 5)
     [("load_power", Value.vInt 500)] (by decide)⟩

theorem on_message_registered (dev : Device)
    (callbacks : List (String × (Value → Except Unit Value)))
    (decode : String → Option Value) (topic raw : String)
    (cb : Value → Except Unit Value)
    (h1 : 5 ≤ (pySplitChar '/' topic).length)
    (h2 : (pySplitChar '/' topic).getLast? = some ("set"))
    (h3 : alookup callbacks (commandKey topic) = some cb) :
    on_message dev callbacks decode topic raw =
      dispatchCommand dev (commandKey topic)
        (commandValue decode (pyStrip raw))
        (cb (commandValue decode (pyStrip raw))) := by
  simp only [on_message]
  rw [if_pos (And.intro h1 h2), h3]

/-- C2 counterexample: a registered callback that raises an exception is an
outcome of the invocation other than an explicit False return, yet it is not
treated as success: the dispatcher publishes nothing and leaves internal
state unchanged (it logs an error and does not crash). -/
theorem C2_counterexample_raising_callback :
    ((on_message sampleDevice sampleCallbacksRaise decodeNone sampleCmdTopic
        ("25")).1.state = sampleDevice.state)
    ∧ (∀ t p b, Effect.publish t p b ∉
        (on_message sampleDevice sampleCallbacksRaise decodeNone sampleCmdTopic
          ("25")).2)
    ∧ (∀ r, cbRaise (commandValue decodeNone (pyStrip ("25"))) ≠ Except.ok r) := by
  have heff : (on_message sampleDevice sampleCallbacksRaise decodeNone
      sampleCmdTopic ("25")).2
      = [Effect.log .info ("Received command for max_charge_current"),
         Effect.log .error ("Error executing callback for max_charge_current")] := by
    decide
  refine ⟨by decide, ?_, ?_⟩
  · intro t p b
    rw [heff]
    simp
  · intro r h
    simp [cbRaise] at h

/-- C2 (amended): in command dispatch, among normal returns only an explicit
False return counts as failure (warning logged, nothing published, state
unchanged); every other returned value, including None, is success (the new
value is republished retained to the key's state topic and stored); a
callback that raises is caught: an error is logged, nothing is published and
state is unchanged.  In all three cases the dispatcher returns normally. -/
theorem C2_amended_dispatch_outcomes :
    ∀ (dev : Device) (callbacks : List (String × (Value → Except Unit Value)))
      (decode : String → Option Value) (topic raw : String)
      (cb : Value → Except Unit Value),
    5 ≤ (pySplitChar '/' topic).length →
    (pySplitChar '/' topic).getLast? = some ("set") →
    alookup callbacks (commandKey topic) = some cb →
    ((∀ r, cb (commandValue decode (pyStrip raw)) = Except.ok r →
        r ≠ Value.vBool false →
        on_message dev callbacks decode topic raw =
          ({ dev with state := (_set_state dev.state (commandKey topic)
              (commandValue decode (pyStrip raw))).1 },
           [Effect.log .info ("Received command for " ++ commandKey topic),
            Effect.log .info ("Command for " ++ commandKey topic ++ " executed"),
            Effect.publish (commandStateTopic dev (commandKey topic))
              (commandValue decode (pyStrip raw)) true,
            Effect.log .debug ("State updated")]))
    ∧ (cb (commandValue decode (pyStrip raw)) = Except.ok (Value.vBool false) →
        on_message dev callbacks decode topic raw =
          (dev,
           [Effect.log .info ("Received command for " ++ commandKey topic),
            Effect.log .warning ("Command for " ++ commandKey topic ++
              " failed or was rejected")]))
    ∧ (∀ u, cb (commandValue decode (pyStrip raw)) = Except.error u →
        on_message dev callbacks decode topic raw =
          (dev,
           [Effect.log .info ("Received command for " ++ commandKey topic),
            Effect.log .error ("Error executing callback for " ++
              commandKey topic)]))) := by
  intro dev callbacks decode topic raw cb h1 h2 h3
  have hred := on_message_registered dev callbacks decode topic raw cb h1 h2 h3
  refine ⟨?_, ?_, ?_⟩
  · intro r hok hr
    rw [hred, hok]
    simp [dispatchCommand, hr]
  · intro hok
    rw [hred, hok]
    simp [dispatchCommand]
  · intro u herr
    rw [hred, herr]
    simp [dispatchCommand]

/-- Witness for C2's amended claim: a callback returning None is success. -/
theorem C2_amended_witness :
    (5 ≤ (pySplitChar '/' sampleCmdTopic).length)
    ∧ ((pySplitChar '/' sampleCmdTopic).getLast? = some ("set"))
    ∧ (alookup [(("max_charge_current" : String),
        (fun _ => Except.ok Value.vNone : Value → Except Unit Value))]
        (commandKey sampleCmdTopic)
        = some (fun _ => Except.ok Value.vNone))
    ∧ (∀ r, (fun _ => Except.ok Value.vNone : Value → Except Unit Value)
          (commandValue decodeNone (pyStrip ("25"))) = Except.ok r →
        r ≠ Value.vBool false →
        on_message sampleDevice
          [(("max_charge_current" : String),
            (fun _ => Except.ok Value.vNone : Value → Except Unit Value))]
          decodeNone sampleCmdTopic ("25") =
          ({ sampleDevice with
              state := (_set_state sampleDevice.state
                (commandKey sampleCmdTopic)
                (commandValue decodeNone (pyStrip ("25")))).1 },
           [Effect.log .info ("Received command for " ++ commandKey sampleCmdTopic),
            Effect.log .info ("Command for " ++ commandKey sampleCmdTopic ++
              " executed"),
            Effect.publish (commandStateTopic sampleDevice
              (commandKey sampleCmdTopic))
              (commandValue decodeNone (pyStrip ("25"))) true,
            Effect.log .debug ("State updated")])) :=
  ⟨by decide, by decide, rfl,
   (C2_amended_dispatch_outcomes sampleDevice
     [(("max_charge_current" : String),
       (fun _ => Except.ok Value.vNone : Value → Except Unit Value))]
     decodeNone sampleCmdTopic ("25")
     (fun _ => Except.ok Value.vNone) (by decide) (by decide) rfl).1⟩

/-- C3: an inbound message whose topic has at least 5 slash-separated
segments and ends in the literal segment set, but whose key (second-to-last
segment) has no registered actuator callback, is logged and discarded: the
handler returns normally with no publish and unchanged internal state. -/
theorem C3_unregistered_key_discarded :
    ∀ (dev : Device) (callbacks : List (String × (Value → Except Unit Value)))
      (decode : String → Option Value) (topic raw : String),
    5 ≤ (pySplitChar '/' topic).length →
    (pySplitChar '/' topic).getLast? = some ("set") →
    alookup callbacks (commandKey topic) = none →
    on_message dev callbacks decode topic raw =
      (dev, [Effect.log .warning ("No callback found for actuator key: " ++
        commandKey topic)]) := by
  intro dev callbacks decode topic raw h1 h2 h3
  simp only [on_message]
  rw [if_pos (And.intro h1 h2), h3]

/-- Witness for C3 at a concrete topic with an empty callback table. -/
theorem C3_witness :
    (5 ≤ (pySplitChar '/' sampleCmdTopic).length)
    ∧ ((pySplitChar '/' sampleCmdTopic).getLast? = some ("set"))
    ∧ (alookup ([] : List (String × (Value → Except Unit Value)))
        (commandKey sampleCmdTopic) = none)
    ∧ on_message sampleDevice [] decodeNone sampleCmdTopic ("25") =
        (sampleDevice,
         [Effect.log .warning ("No callback found for actuator key: " ++
           commandKey sampleCmdTopic)]) :=
  ⟨by decide, by decide, rfl,
   C3_unregistered_key_discarded sampleDevice [] decodeNone sampleCmdTopic
     ("25") (by decide) (by decide) rfl⟩

/-- C8: for a registered key, dispatch first attempts to decode the payload;
when the decoder succeeds the decoded value is passed to the callback, and
exactly when it fails the raw decoded-and-stripped payload string is passed
instead — the message is still dispatched, not rejected.  The side condition
excludes the impossible case of a JSON decode yielding the payload string
itself (a JSON string literal always carries its quotes). -/
theorem C8_decode_fallback_to_raw_string :
    ∀ (dev : Device) (callbacks : List (String × (Value → Except Unit Value)))
      (decode : String → Option Value) (topic raw : String)
      (cb : Value → Except Unit Value),
    5 ≤ (pySplitChar '/' topic).length →
    (pySplitChar '/' topic).getLast? = some ("set") →
    alookup callbacks (commandKey topic) = some cb →
    decode (pyStrip raw) ≠ some (Value.vStr (pyStrip raw)) →
    ((on_message dev callbacks decode topic raw =
       dispatchCommand dev (commandKey topic)
         (commandValue decode (pyStrip raw))
         (cb (commandValue decode (pyStrip raw))))
    ∧ (∀ v, decode (pyStrip raw) = some v →
        commandValue decode (pyStrip raw) = v)
    ∧ (commandValue decode (pyStrip raw) = Value.vStr (pyStrip raw) ↔
        decode (pyStrip raw) = none)) := by
  intro dev callbacks decode topic raw cb h1 h2 h3 h4
  refine ⟨on_message_registered dev callbacks decode topic raw cb h1 h2 h3,
    ?_, ?_⟩
  · intro v hv
    simp [commandValue, hv]
  · constructor
    · intro hval
      rcases hd : decode (pyStrip raw) with _ | v
      · rfl
      · exfalso
        apply h4
        rw [hd]
        simp only [commandValue, hd] at hval
        rw [hval]
    · intro hd
      simp [commandValue, hd]

/-- Witness for C8 at a concrete topic with an always-failing decoder. -/
theorem C8_witness :
    (5 ≤ (pySplitChar '/' sampleCmdTopic).length)
    ∧ ((pySplitChar '/' sampleCmdTopic).getLast? = some ("set"))
    ∧ (alookup sampleCallbacksRaise (commandKey sampleCmdTopic) = some cbRaise)
    ∧ (decodeNone (pyStrip ("hello")) ≠ some (Value.vStr (pyStrip ("hello"))))
    ∧ ((on_message sampleDevice sampleCallbacksRaise decodeNone sampleCmdTopic
          ("hello") =
        dispatchCommand sampleDevice (commandKey sampleCmdTopic)
          (commandValue decodeNone (pyStrip ("hello")))
          (cbRaise (commandValue decodeNone (pyStrip ("hello")))))
    ∧ (∀ v, decodeNone (pyStrip ("hello")) = some v →
        commandValue decodeNone (pyStrip ("hello")) = v)
    ∧ (commandValue decodeNone (pyStrip ("hello"))
          = Value.vStr (pyStrip ("hello")) ↔
        decodeNone (pyStrip ("hello")) = none)) :=
  ⟨by decide, by decide, rfl, by simp [decodeNone],
   C8_decode_fallback_to_raw_string sampleDevice sampleCallbacksRaise
     decodeNone sampleCmdTopic ("hello") cbRaise (by decide) (by decide) rfl
     (by simp [decodeNone])⟩

theorem reconnectLoop_no_willSet (outcome : Nat → Bool) :
    ∀ (fuel attempts : Nat) (delay : ℚ) (t : String) (p : Value) (r : Bool),
    Effect.willSet t p r ∉ reconnectLoop outcome fuel attempts delay := by
  intro fuel
  induction fuel with
  | zero =>
    intro attempts delay t p r
    simp [reconnectLoop]
  | succ n ih =>
    intro attempts delay t p r
    by_cases h : outcome attempts = true
    · simp [reconnectLoop, h]
    · simp [reconnectLoop, h, ih (attempts + 1) (min (delay * 2) 60) t p r]

/-- C4: the last-will for the availability topic is armed to retained
"offline" during device construction (initEffects), which contains no
connect action; neither connect nor disconnect handling arms a will; and on
every successful broker connection (result code 0) the device publishes
retained "online" to the same availability topic. -/
theorem C4_last_will_offline_and_online_publish :
    ∀ (dev : Device) (mqtt_user : Option String) (outcome : Nat → Bool),
    (Effect.willSet (availabilityTopic dev.device_id) (Value.vStr ("offline")) true
        ∈ initEffects dev mqtt_user)
    ∧ (∀ t p r, Effect.willSet t p r ∈ initEffects dev mqtt_user →
        t = availabilityTopic dev.device_id ∧ p = Value.vStr ("offline") ∧ r = true)
    ∧ Effect.connectBroker ∉ initEffects dev mqtt_user
    ∧ (∀ t p r, Effect.willSet t p r ∉ connectEffects)
    ∧ (Effect.publish (availabilityTopic dev.device_id) (Value.vStr ("online")) true
        ∈ on_connect dev 0)
    ∧ (∀ t p r, Effect.willSet t p r ∉ on_disconnect outcome) := by
  intro dev mqtt_user outcome
  refine ⟨?_, ?_, ?_, ?_, ?_, ?_⟩
  · cases h : isTruthy mqtt_user <;> simp [initEffects, h]
  · intro t p r hmem
    cases h : isTruthy mqtt_user <;> simp [initEffects, h] at hmem <;>
      exact hmem
  · cases h : isTruthy mqtt_user <;> simp [initEffects, h]
  · intro t p r
    simp [connectEffects]
  · simp [on_connect]
  · intro t p r
    simp [on_disconnect, reconnectLoop_no_willSet outcome 10 0 1 t p r]

theorem dedupe_filter_cons (a0 : String) (rest : List String) :
    ∀ (seen : List String),
    rest.filter (fun a => decide (a ≠ "" ∧ a ∉ a0 :: seen))
      = (rest.filter (fun a => decide (a ≠ "" ∧ a ∉ seen))).filter
          (fun a => decide (a ≠ a0)) := by
  intro seen
  rw [List.filter_filter]
  apply List.filter_congr
  intro a _
  by_cases h1 : a = ""
  · simp [h1]
  · by_cases h3 : a = a0
    · simp [h1, h3]
    · by_cases h2 : a ∈ seen <;> simp [h1, h2, h3]

theorem dedupeKeepFirst_eq_spec :
    ∀ (l seen out : List String),
    dedupeKeepFirst l seen out
      = out ++ specFirstOccurrence
          (l.filter (fun a => decide (a ≠ "" ∧ a ∉ seen))) := by
  intro l
  induction l with
  | nil =>
    intro seen out
    simp [dedupeKeepFirst, specFirstOccurrence]
  | cons a rest ih =>
    intro seen out
    by_cases h : a ≠ "" ∧ a ∉ seen
    · rw [dedupeKeepFirst, if_pos h, ih (a :: seen) (out ++ [a])]
      rw [List.filter_cons_of_pos (by simp [h.1, h.2])]
      rw [dedupe_filter_cons a rest seen]
      simp only [specFirstOccurrence]
      simp [List.append_assoc]
    · rw [dedupeKeepFirst, if_neg h, ih seen out]
      rw [List.filter_cons_of_neg (by simpa using h)]

theorem split_addrs_eq_spec (v : String) :
    _split_addrs v
      = specFirstOccurrence ((rawAddrTokens v).filter (fun a => decide (a ≠ ""))) := by
  by_cases hv : v = ""
  · subst hv
    have h0 : rawAddrTokens ("") = [] := by decide
    simp [_split_addrs, h0, specFirstOccurrence]
  · rw [_split_addrs, if_neg hv, dedupeKeepFirst_eq_spec]
    rw [List.nil_append]
    congr 1
    apply List.filter_congr
    intro a _
    simp

/-- C5: address resolution trims and splits the comma/space-separated list,
removes duplicates keeping the first occurrence of each address in order
(_split_addrs equals the spec-side first-occurrence dedup of the trimmed
nonempty tokens); a truthy legacy address is placed first with its later
duplicates removed; and concretely, legacy "A" with list "B, A, C" resolves
to ["A", "B", "C"]. -/
theorem C5_address_resolution_order :
    ∀ (l env : String),
    ((∀ v : String, _split_addrs v
        = specFirstOccurrence ((rawAddrTokens v).filter (fun a => decide (a ≠ ""))))
    ∧ (l ≠ "" → _resolve_inverter_addrs (some l) env
        = l :: (_split_addrs env).filter (fun a => decide (a ≠ l)))
    ∧ _resolve_inverter_addrs (some ("A")) ("B, A, C") = ["A", "B", "C"]) := by
  intro l env
  refine ⟨split_addrs_eq_spec, ?_, by decide⟩
  intro hl
  simp [_resolve_inverter_addrs, hl]

/-- Witness for C5 at the spec's own concrete example. -/
theorem C5_witness :
    (("A" : String) ≠ "")
    ∧ ((∀ v : String, _split_addrs v
        = specFirstOccurrence ((rawAddrTokens v).filter (fun a => decide (a ≠ ""))))
    ∧ (("A" : String) ≠ "" → _resolve_inverter_addrs (some ("A")) ("B, A, C")
        = "A" :: (_split_addrs ("B, A, C")).filter (fun a => decide (a ≠ "A")))
    ∧ _resolve_inverter_addrs (some ("A")) ("B, A, C") = ["A", "B", "C"]) :=
  ⟨by decide, C5_address_resolution_order ("A") ("B, A, C")⟩

theorem runInverterLoop_chain (I : ℚ) :
    ∀ (times : List ℚ) (last : ℚ),
    List.Chain' (fun a b => I ≤ b - a)
      (last :: ((runInverterLoopIters I times last).filter
        (fun it => it.2)).map Prod.fst) := by
  intro times
  induction times with
  | nil =>
    intro last
    simp [runInverterLoopIters]
  | cons now rest ih =>
    intro last
    by_cases h : I ≤ now - last
    · simp only [runInverterLoopIters, if_pos h, List.filter_cons,
        if_true, List.map_cons]
      rw [List.chain'_cons]
      exact ⟨h, ih now⟩
    · simp only [runInverterLoopIters, if_neg h, List.filter_cons]
      simp only [Bool.false_eq_true, if_false]
      exact ih last

theorem runInverterLoop_map_fst (I : ℚ) :
    ∀ (times : List ℚ) (last : ℚ),
    (runInverterLoopIters I times last).map Prod.fst = times := by
  intro times
  induction times with
  | nil =>
    intro last
    rfl
  | cons now rest ih =>
    intro last
    by_cases h : I ≤ now - last <;> simp [runInverterLoopIters, h, ih]

/-- C6: for poll interval at least 0 and actuator-refresh interval at least
the poll interval, the actuator refresh in run_inverter_task's connected
loop fires at most once per refresh interval: between two consecutive
refreshes at least the refresh interval of monotonic time elapses, while the
sensor poll runs on every loop iteration (one iteration per clock reading). -/
theorem C6_actuator_refresh_rate_limited :
    ∀ (poll_interval refresh_interval : ℚ) (times : List ℚ) (t0 : ℚ),
    0 ≤ poll_interval → poll_interval ≤ refresh_interval →
    (List.Chain' (fun a b => refresh_interval ≤ b - a)
      (((runInverterLoopIters refresh_interval times t0).filter
        (fun it => it.2)).map Prod.fst)
    ∧ (runInverterLoopIters refresh_interval times t0).map Prod.fst = times) := by
  intro pI rI times t0 _ _
  exact ⟨(runInverterLoop_chain rI times t0).tail,
    runInverterLoop_map_fst rI times t0⟩

/-- Witness for C6 at concrete intervals and clock readings. -/
theorem C6_witness :
    ((0 : ℚ) ≤ 5) ∧ ((5 : ℚ) ≤ 30)
    ∧ (List.Chain' (fun a b => (30 : ℚ) ≤ b - a)
        (((runInverterLoopIters 30 [10, 20, 35, 50, 70] 0).filter
          (fun it => it.2)).map Prod.fst)
    ∧ (runInverterLoopIters 30 [10, 20, 35, 50, 70] 0).map Prod.fst
        = [10, 20, 35, 50, 70]) :=
  ⟨by decide, by decide,
   C6_actuator_refresh_rate_limited 5 30 [10, 20, 35, 50, 70] 0
     (by decide) (by decide)⟩

/-- C9: when zero device addresses are resolved (no inverter and no wallbox
addresses), _run_all raises SystemExit with the descriptive message (a
non-zero process exit), and the spawned task list is empty — no supervisor
loop is started and nothing is retried. -/
theorem C9_zero_devices_fail_fast :
    ∀ (inv_legacy wb_legacy : Option String) (inv_env wb_env : String),
    _resolve_inverter_addrs inv_legacy inv_env = [] →
    _resolve_wallbox_addrs wb_legacy wb_env = [] →
    (_run_all (_resolve_inverter_addrs inv_legacy inv_env)
        (_resolve_wallbox_addrs wb_legacy wb_env)
      = Except.error
          ("No devices configured. Set RENAC_INVERTER_ADDR(S) and/or RENAC_WALLBOX_ADDR(S).")
    ∧ ((_resolve_inverter_addrs inv_legacy inv_env).map TaskSpec.inverter ++
        (_resolve_wallbox_addrs wb_legacy wb_env).map TaskSpec.wallbox) = []) := by
  intro il wl ie we h1 h2
  rw [h1, h2]
  exact ⟨rfl, rfl⟩

/-- Witness for C9 with no legacy address and empty address lists. -/
theorem C9_witness :
    (_resolve_inverter_addrs none ("") = [])
    ∧ (_resolve_wallbox_addrs none ("") = [])
    ∧ (_run_all (_resolve_inverter_addrs none (""))
        (_resolve_wallbox_addrs none (""))
      = Except.error
          ("No devices configured. Set RENAC_INVERTER_ADDR(S) and/or RENAC_WALLBOX_ADDR(S).")
    ∧ ((_resolve_inverter_addrs none ("")).map TaskSpec.inverter ++
        (_resolve_wallbox_addrs none ("")).map TaskSpec.wallbox) = []) :=
  ⟨rfl, rfl, C9_zero_devices_fail_fast none none ("") ("") rfl rfl⟩
